import Mathlib

/-!
Verification of the zone-transfer module (`xfr.go`) of the `dns` package.

The Go source is shallowly embedded: machine integers become `Nat`,
Go slices become `List`, the `error` interface becomes an `Option` of an
error inductive, and the blocking read loop of `Transfer.InAxfr` becomes a
structural recursion over the (finite prefix of the) sequence of outcomes
that successive `ReadMsg` calls would produce on the connection.
-/

namespace Dns

/-- DNS record-type constants (values from the DNS registry, as used by the
package). -/
def TypeSOA : Nat := 6

def TypeA : Nat := 1

def TypeAXFR : Nat := 252

def TypeIXFR : Nat := 251

/-- A resource record.  `xfr.go` inspects only `Header().Rrtype`; the
`Serial` field carries the SOA serial so that concrete scenarios can be
written, it is never read by the transfer logic. -/
structure RR where
  Rrtype : Nat
  Serial : Nat := 0
  deriving DecidableEq

/-- The TSIG record of a message, as far as `xfr.go` looks at it:
`ts.Hdr.Name` (the signer / key name). -/
structure TSIG where
  HdrName : String
  deriving DecidableEq

/-- One entry of a message's question section; `Transfer.In` reads
`q.Question[0].Qtype`. -/
structure DnsQuestion where
  Qtype : Nat
  deriving DecidableEq

/-- A decoded DNS message, restricted to the fields `xfr.go` uses:
`Id`, `Answer`, `Question`.  `Tsig` models the result of the external
`Msg.IsTsig()` accessor (the TSIG record in the additional section, if
any); it is `none` for an unsigned message. -/
structure Msg where
  Id : Nat
  Answer : List RR := []
  Question : List DnsQuestion := []
  Tsig : Option TSIG := none
  deriving DecidableEq

/-- The sentinel errors of the package that `xfr.go` produces (`ErrId`,
`ErrSoa`, `ErrSecret`), plus `readFailure` standing for an arbitrary
transport/decode/verification error value carried through the `error`
interface. -/
inductive DnsError where
  | errId
  | errSoa
  | errSecret
  | readFailure (code : Nat)
  deriving DecidableEq

/-- Type `Envelope` from `xfr.go`: the answer records of one reply message plus
an optional error (`nil` becomes `none`). -/
structure Envelope where
  RR : List RR
  Error : Option DnsError
  deriving DecidableEq

/-- The outcome of one `ReadMsg` call as observed by `InAxfr`: either a
decoded message or an error.  A transfer's connection is embedded as the
finite list of outcomes its successive reads produce. -/
inductive ReadResult where
  | ok (m : Msg)
  | err (e : DnsError)
  deriving DecidableEq

/-- The mutable state of the `InAxfr` loop: the local `first` flag and the
Transfer's `tsigTimersOnly` field. -/
structure LoopSt where
  first : Bool
  timersOnly : Bool
  deriving DecidableEq

/-- The `Transfer` struct of `xfr.go`.  `Conn` is the embedded connection,
represented by the outcomes of its pending reads; `TsigSecret` is the
key-store map (an association list), `tsigRequestMAC` and `tsigTimersOnly`
the TSIG chaining state. -/
structure Transfer where
  Conn : List ReadResult := []
  DialTimeout : Nat := 0
  ReadTimeout : Nat := 0
  WriteTimeout : Nat := 0
  TsigSecret : List (String × String) := []
  tsigRequestMAC : String := ""
  tsigTimersOnly : Bool := false
  deriving DecidableEq

/-- Modelled from the spec: the package-level default timeout constant
(defined outside `xfr.go`), 2 seconds in nanoseconds. -/
def dnsTimeout : Nat := 2000000000

/-- Predicate `isSOAFirst` from `xfr.go`: the answer section is nonempty and its
first record has type SOA. -/
def isSOAFirst (m : Msg) : Bool :=
  if m.Answer.length > 0 then
    (m.Answer.headD ⟨0, 0⟩).Rrtype == TypeSOA
  else
    false

/-- Predicate `isSOALast` from `xfr.go`: the answer section is nonempty and its last
record has type SOA. -/
def isSOALast (m : Msg) : Bool :=
  if m.Answer.length > 0 then
    (m.Answer.getLastD ⟨0, 0⟩).Rrtype == TypeSOA
  else
    false

/-- One iteration of the `for` loop of `Transfer.InAxfr`, given the
outcome of the iteration's `ReadMsg` call.  Returns the `Envelope` sent on
the channel, the loop state afterwards, and `true` when the iteration
`return`s (so the deferred `close(c)`/`t.Close()` run and no further read
happens).  Branches follow the source in order: read error, id mismatch,
the `first` block (leading-SOA check, flag flip, lone-SOA `continue`),
then the `!first` block (`tsigTimersOnly = true`, trailing-SOA check). -/
def stepInAxfr (id : Nat) (s : LoopSt) (r : ReadResult) :
    Envelope × LoopSt × Bool :=
  match r with
  | .err e => (⟨[], some e⟩, s, true)
  | .ok m =>
    if m.Id = id then
      if s.first then
        if isSOAFirst m then
          if m.Answer.length = 1 then
            (⟨m.Answer, none⟩, ⟨false, true⟩, false)
          else if isSOALast m then
            (⟨m.Answer, none⟩, ⟨false, true⟩, true)
          else
            (⟨m.Answer, none⟩, ⟨false, true⟩, false)
        else
          (⟨m.Answer, some .errSoa⟩, s, true)
      else
        if isSOALast m then
          (⟨m.Answer, none⟩, ⟨s.first, true⟩, true)
        else
          (⟨m.Answer, none⟩, ⟨s.first, true⟩, false)
    else
      (⟨m.Answer, some .errId⟩, s, true)

/-- The observable outcome of running `InAxfr` against a finite list of
read outcomes: the envelopes sent, the loop state after the last processed
read, whether the loop `return`ed (`done = true` — channel closed, no
further read attempted) or instead exhausted the list while still looping
(`done = false` — the next `ReadMsg` call is pending), the number of reads
performed, and the state trace after each processed read. -/
structure AxfrResult where
  envs : List Envelope
  finalSt : LoopSt
  done : Bool
  readsUsed : Nat
  trace : List LoopSt
  deriving DecidableEq

/-- The `for` loop of `Transfer.InAxfr`, driven by the list of outcomes of
successive `ReadMsg` calls. -/
def runInAxfr (id : Nat) (s : LoopSt) : List ReadResult → AxfrResult
  | [] => ⟨[], s, false, 0, []⟩
  | r :: rs =>
    match stepInAxfr id s r with
    | (e, s', true) => ⟨[e], s', true, 1, [s']⟩
    | (e, s', false) =>
      let rest := runInAxfr id s' rs
      ⟨e :: rest.envs, rest.finalSt, rest.done, rest.readsUsed + 1,
        s' :: rest.trace⟩

/-- The initial loop state of a transfer started on a fresh `Transfer`
(zero value): `first = true`, `tsigTimersOnly = false`. -/
def initSt : LoopSt := ⟨true, false⟩

/-- The `InAxfr` run from the initial state of a fresh `Transfer`. -/
def inAxfr (id : Nat) (reads : List ReadResult) : AxfrResult :=
  runInAxfr id initSt reads

/-- Method `Transfer.In` from `xfr.go`.  `dial` embeds `net.DialTimeout`: the
network environment mapping an address to either a dial error or the read
outcomes the dialed connection would deliver.  Faithful to the source, the
dialed connection is bound to the local `co` and never stored into `t`, so
the spawned `InAxfr` goroutine reads the embedded `t.Conn`, not `co`; the
spawned run's outcome is returned (`none` when the question type is
neither AXFR nor IXFR: the source spawns nothing and returns `nil`). -/
def In (t : Transfer) (dial : String → Except DnsError (List ReadResult))
    (q : Msg) (a : String) : Except DnsError (Option AxfrResult) :=
  match dial a with
  | .error e => .error e
  | .ok _co =>
    if (q.Question.headD ⟨0⟩).Qtype = TypeAXFR then
      .ok (some (runInAxfr q.Id ⟨true, t.tsigTimersOnly⟩ t.Conn))
    else if (q.Question.headD ⟨0⟩).Qtype = TypeIXFR then
      .ok (some (runInAxfr q.Id ⟨true, t.tsigTimersOnly⟩ t.Conn))
    else
      .ok none

/-- A connection-configuration operation that `Transfer.In` could perform
on the connection it establishes. -/
inductive ConnOp where
  | dialOp (addr : String) (timeoutNs : Nat)
  | setReadDeadlineOp (ns : Nat)
  | setWriteDeadlineOp (ns : Nat)
  deriving DecidableEq

/-- Holds exactly on the deadline-setting operations. -/
def isDeadlineOp : ConnOp → Bool
  | .setReadDeadlineOp _ => true
  | .setWriteDeadlineOp _ => true
  | .dialOp _ _ => false

/-- The connection-configuration operations the live body of `Transfer.In`
performs, in order: only the dial, with `DialTimeout` defaulting to
`dnsTimeout` when unset.  The block that would call `SetReadDeadline` and
`SetWriteDeadline` (xfr.go lines 102-116) is commented out in the source
and so contributes nothing. -/
def inConnOps (t : Transfer) (a : String) : List ConnOp :=
  [.dialOp a (if t.DialTimeout ≠ 0 then t.DialTimeout else dnsTimeout)]

/-- The observable outcome of `Transfer.ReadMsg` on one received frame:
either the Go `return` value (message pointer and error, each possibly
nil) or a runtime panic. -/
inductive ReadMsgRes where
  | panics
  | ret (m : Option Msg) (e : Option DnsError)
  deriving DecidableEq

/-- Method `Transfer.ReadMsg` from `xfr.go`.  `input` is the combined outcome of
the raw read and `Msg.Unpack` (both failure paths return `(nil, err)`);
`vf` embeds the external `TsigVerify(raw, secret, requestMAC, timersOnly)`,
given the looked-up secret and the Transfer's chaining state.  The guard in
the source is `if ts := m.IsTsig(); t != nil` — it tests the receiver `t`
(always non-nil here), not `ts`, so the TSIG branch runs for every decoded
message; when the message carries no TSIG record, `ts` is nil and
`ts.Hdr.Name` faults (modelled as `panics`). -/
def ReadMsg (vf : String → String → Bool → Option DnsError)
    (t : Transfer) (input : Except DnsError Msg) : ReadMsgRes :=
  match input with
  | .error e => .ret none (some e)
  | .ok m =>
    match m.Tsig with
    | none => .panics
    | some ts =>
      match t.TsigSecret.lookup ts.HdrName with
      | none => .ret (some m) (some .errSecret)
      | some secret => .ret (some m) (vf secret t.tsigRequestMAC t.tsigTimersOnly)

/-- The observable outcome of `Transfer.WriteMsg`: the returned error (or
none) together with the Transfer state afterwards (`tsigRequestMAC` may
have been reassigned), or a runtime panic. -/
inductive WriteMsgRes where
  | panics
  | ret (e : Option DnsError) (t : Transfer)
  deriving DecidableEq

/-- Method `Transfer.WriteMsg` from `xfr.go`.  `gen` embeds the external
`TsigGenerate(m, secret, requestMAC, timersOnly)`, returning the new
request MAC and an optional error; the source's multi-assignment stores
the returned MAC into `t.tsigRequestMAC` even when `TsigGenerate` errors.
The guard is again `if ts := m.IsTsig(); t != nil`, so the unsigned
serialization branch (`m.Pack()`) is unreachable and an unsigned message
faults on `ts.Hdr.Name` (modelled as `panics`). -/
def WriteMsg (gen : Msg → String → String → Bool → String × Option DnsError)
    (t : Transfer) (m : Msg) : WriteMsgRes :=
  match m.Tsig with
  | none => .panics
  | some ts =>
    match t.TsigSecret.lookup ts.HdrName with
    | none => .ret (some .errSecret) t
    | some secret =>
      let g := gen m secret t.tsigRequestMAC t.tsigTimersOnly
      let t' := { t with tsigRequestMAC := g.1 }
      match g.2 with
      | some e => .ret (some e) t'
      | none => .ret none t'

/-- The goroutine body of `Transfer.Out`: the reply `r` is created once
(`SetReply` leaves its answer section empty) and reused across the loop;
for each envelope drained from the channel its records are appended to
`r.Answer` and the whole of `r.Answer` is written.  `rAnswer` is the
current content of `r.Answer`; the result lists the answer sections of the
successive messages written, assuming every `WriteMsg` succeeds. -/
def outAnswers (rAnswer : List RR) : List (List RR) → List (List RR)
  | [] => []
  | env :: rest =>
    let rAnswer' := rAnswer ++ env
    rAnswer' :: outAnswers rAnswer' rest

/-- A SOA record with serial 5, for the concrete scenarios. -/
def soa5 : RR := ⟨TypeSOA, 5⟩

/-- An address (A) record, for the concrete scenarios. -/
def rrA : RR := ⟨TypeA, 0⟩

/-- A second, distinct address record. -/
def rrB : RR := ⟨TypeA, 1⟩

/-- Scenario A's server message: id 42, answers `[SOA(5)]`, unsigned. -/
def msgA : Msg := { Id := 42, Answer := [soa5] }

/-- A message with mismatched id 99 and answers `[SOA(5)]`. -/
def msg99 : Msg := { Id := 99, Answer := [soa5] }

/-- A streaming message: id 42, two address records then the closing SOA. -/
def msgStream : Msg := { Id := 42, Answer := [rrA, rrB, soa5] }

/-- A first message whose answer section does not start with SOA. -/
def msgNoSoa : Msg := { Id := 42, Answer := [rrA] }

/-- A subsequent message with an empty answer section. -/
def msgEmpty : Msg := { Id := 42, Answer := [] }

/-- An AXFR query message with id 42. -/
def qAxfr : Msg := { Id := 42, Question := [⟨TypeAXFR⟩] }

/-- A network environment whose every dial yields a connection delivering
scenario A's single server message. -/
def dialServerA : String → Except DnsError (List ReadResult) :=
  fun _ => .ok [.ok msgA]

/-- A network environment whose every dial yields a connection delivering
nothing. -/
def dialEmpty : String → Except DnsError (List ReadResult) :=
  fun _ => .ok []

/-- The successive values of the Transfer's `tsigTimersOnly` field after
each message processed by `InAxfr`, for a transfer on a fresh `Transfer`. -/
def timersTrace (id : Nat) (reads : List ReadResult) : List Bool :=
  (inAxfr id reads).trace.map LoopSt.timersOnly

/-- Whether the first read outcome of a transfer is a successfully
validated message: decoded without error, identifier matching the request,
leading answer record of type SOA. -/
def firstValidated (id : Nat) : List ReadResult → Bool
  | .ok m :: _ => decide (m.Id = id) && isSOAFirst m
  | _ => false

/-- Unfolding a run on a first read whose step continues the loop. -/
theorem run_cons_cont (id : Nat) (s : LoopSt) (r : ReadResult)
    (l : List ReadResult) (e : Envelope) (s' : LoopSt)
    (hstep : stepInAxfr id s r = (e, s', false)) :
    runInAxfr id s (r :: l) =
      ⟨e :: (runInAxfr id s' l).envs, (runInAxfr id s' l).finalSt,
        (runInAxfr id s' l).done, (runInAxfr id s' l).readsUsed + 1,
        s' :: (runInAxfr id s' l).trace⟩ := by
  simp [runInAxfr, hstep]

/-- Unfolding a run on a first read whose step stops the loop. -/
theorem run_cons_stop (id : Nat) (s : LoopSt) (r : ReadResult)
    (l : List ReadResult) (e : Envelope) (s' : LoopSt)
    (hstep : stepInAxfr id s r = (e, s', true)) :
    runInAxfr id s (r :: l) = ⟨[e], s', true, 1, [s']⟩ := by
  simp [runInAxfr, hstep]

/-- The loop state reached by one step never clears `tsigTimersOnly`:
the stop branches keep the state, the continue branches set it. -/
theorem step_timersOnly_mono (id : Nat) (s : LoopSt) (r : ReadResult) :
    s.timersOnly ≤ (stepInAxfr id s r).2.1.timersOnly := by
  cases r with
  | err e => simp [stepInAxfr]
  | ok m =>
    simp only [stepInAxfr]
    split_ifs <;> simp [Bool.le_true]

/-- Along a run, the `tsigTimersOnly` values (prefixed by the starting
value) form a `≤`-chain: the flag never goes from `true` back to
`false`. -/
theorem run_trace_chain (id : Nat) (rs : List ReadResult) : ∀ s : LoopSt,
    List.Chain' (fun a b => a ≤ b)
      (s.timersOnly :: (runInAxfr id s rs).trace.map LoopSt.timersOnly) := by
  induction rs with
  | nil => intro s; simp [runInAxfr]
  | cons r rs ih =>
    intro s
    have hmono := step_timersOnly_mono id s r
    rcases hstep : stepInAxfr id s r with ⟨e, s', stop⟩
    rw [hstep] at hmono
    simp only at hmono
    cases stop with
    | true => simpa [runInAxfr, hstep] using hmono
    | false =>
      have hchain := ih s'
      simp only [runInAxfr, hstep, List.map_cons, List.chain'_cons]
      exact ⟨hmono, hchain⟩

/-- A step that continues the loop emits an error-free envelope. -/
theorem step_cont_error_none (id : Nat) (s : LoopSt) (r : ReadResult)
    (h : (stepInAxfr id s r).2.2 = false) :
    (stepInAxfr id s r).1.Error = none := by
  cases r with
  | err e => simp [stepInAxfr] at h
  | ok m =>
    simp only [stepInAxfr] at h ⊢
    split_ifs at h ⊢ <;> simp_all

/-- A run that exhausts its input without `return`ing emitted only
error-free envelopes and consumed every read. -/
theorem run_not_done (id : Nat) (rs : List ReadResult) : ∀ s : LoopSt,
    (runInAxfr id s rs).done = false →
    (∀ e ∈ (runInAxfr id s rs).envs, e.Error = none) ∧
    (runInAxfr id s rs).readsUsed = rs.length := by
  induction rs with
  | nil => intro s _; simp [runInAxfr]
  | cons r rs ih =>
    intro s h
    rcases hstep : stepInAxfr id s r with ⟨e, s', stop⟩
    cases stop with
    | true => simp [runInAxfr, hstep] at h
    | false =>
      have he : e.Error = none := by
        have hc := step_cont_error_none id s r (by rw [hstep])
        rw [hstep] at hc
        simpa using hc
      have h' : (runInAxfr id s' rs).done = false := by
        simpa [runInAxfr, hstep] using h
      obtain ⟨ih1, ih2⟩ := ih s' h'
      refine ⟨?_, ?_⟩
      · intro x hx
        simp only [runInAxfr, hstep, List.mem_cons] at hx
        rcases hx with rfl | hx
        · exact he
        · exact ih1 x hx
      · simp [runInAxfr, hstep, ih2]

/-- Splitting a run at a point where the loop is still going: the run on
the concatenated input is the first run followed by the run on the
remainder from the reached state. -/
theorem run_append (id : Nat) (rest : List ReadResult) :
    ∀ (rs : List ReadResult) (s : LoopSt), (runInAxfr id s rs).done = false →
    runInAxfr id s (rs ++ rest) =
      ⟨(runInAxfr id s rs).envs ++
          (runInAxfr id (runInAxfr id s rs).finalSt rest).envs,
        (runInAxfr id (runInAxfr id s rs).finalSt rest).finalSt,
        (runInAxfr id (runInAxfr id s rs).finalSt rest).done,
        (runInAxfr id s rs).readsUsed +
          (runInAxfr id (runInAxfr id s rs).finalSt rest).readsUsed,
        (runInAxfr id s rs).trace ++
          (runInAxfr id (runInAxfr id s rs).finalSt rest).trace⟩ := by
  intro rs
  induction rs with
  | nil => intro s _; simp [runInAxfr]
  | cons r rs ih =>
    intro s h
    rcases hstep : stepInAxfr id s r with ⟨e, s', stop⟩
    cases stop with
    | true => simp [runInAxfr, hstep] at h
    | false =>
      have h' : (runInAxfr id s' rs).done = false := by
        simpa [runInAxfr, hstep] using h
      rw [List.cons_append, run_cons_cont id s r (rs ++ rest) e s' hstep,
        run_cons_cont id s r rs e s' hstep, ih s' h']
      simp only [AxfrResult.mk.injEq, List.cons_append, and_true, true_and]
      omega

/-- An identifier mismatch stops the loop with an `ErrId` envelope,
whatever the loop state. -/
theorem step_id_mismatch (id : Nat) (s : LoopSt) (m : Msg) (h : m.Id ≠ id) :
    stepInAxfr id s (.ok m) = (⟨m.Answer, some .errId⟩, s, true) := by
  simp [stepInAxfr, h]

/-- After the very first processed read, `tsigTimersOnly` is `true`
exactly when that read was a successfully validated message. -/
theorem step_first_timersOnly (id : Nat) (r : ReadResult) :
    (stepInAxfr id initSt r).2.1.timersOnly = firstValidated id [r] := by
  cases r with
  | err e => rfl
  | ok m =>
    simp only [stepInAxfr, initSt, firstValidated]
    split_ifs <;> simp_all

/-- The predicate `firstValidated` looks only at the first read outcome. -/
theorem firstValidated_cons (id : Nat) (r : ReadResult)
    (rs : List ReadResult) :
    firstValidated id (r :: rs) = firstValidated id [r] := by
  cases r <;> rfl

/-- The i-th message written by the `Out` loop carries the running answer
accumulator: the starting content of `r.Answer` followed by the records of
envelopes `0..i` concatenated. -/
theorem outAnswers_acc (envs : List (List RR)) : ∀ acc : List RR,
    outAnswers acc envs =
      (List.range envs.length).map
        (fun i => acc ++ ((envs.take (i + 1)).flatten)) := by
  induction envs with
  | nil => intro acc; simp [outAnswers]
  | cons e rest ih =>
    intro acc
    simp only [outAnswers, List.length_cons, List.range_succ_eq_map,
      List.map_cons, List.map_map]
    refine congrArg₂ List.cons ?_ ?_
    · simp
    · rw [ih (acc ++ e)]
      refine List.map_congr_left ?_
      intro i _
      simp [List.take_succ_cons, List.append_assoc, Function.comp]

/-- Claim C1 (counterexample): in scenario A — request id 42, the server
sends exactly one message with id 42 and answer section `[SOA(5)]` — the
client does receive the single success envelope, but the transfer does
NOT end: `done = false`, i.e. the loop is still running and its next
`ReadMsg` call is pending, contradicting the claim that no further read is
attempted and the channel is closed. -/
theorem c1_counterexample :
    (inAxfr 42 [ReadResult.ok msgA]).envs = [⟨[soa5], none⟩] ∧
    (inAxfr 42 [ReadResult.ok msgA]).done = false := by
  constructor <;> rfl

/-- Claim C1 (amended): on a first message with id 42 and the lone opening
`SOA(5)`, the client receives the envelope `{records:[SOA(5)], error:nil}`
and the transfer continues — the loop proceeds to further reads in the
streaming state (`first = false`, `tsigTimersOnly = true`) and terminates
only on a later closing-SOA message or a read error. -/
theorem c1_amended_lone_soa_continues (rest : List ReadResult) :
    inAxfr 42 (ReadResult.ok msgA :: rest) =
      ⟨⟨[soa5], none⟩ :: (runInAxfr 42 ⟨false, true⟩ rest).envs,
        (runInAxfr 42 ⟨false, true⟩ rest).finalSt,
        (runInAxfr 42 ⟨false, true⟩ rest).done,
        (runInAxfr 42 ⟨false, true⟩ rest).readsUsed + 1,
        ⟨false, true⟩ :: (runInAxfr 42 ⟨false, true⟩ rest).trace⟩ := by
  have hstep : stepInAxfr 42 initSt (ReadResult.ok msgA) =
      (⟨[soa5], none⟩, ⟨false, true⟩, false) := by decide
  exact run_cons_cont 42 initSt (ReadResult.ok msgA) rest _ _ hstep

/-- Claim C2 (code bug): `Transfer.In` dials a connection to the requested
address but binds it to the local `co`, never storing it into `t`; the
spawned `InAxfr` reads from the Transfer's embedded `Conn`.  Hence for an
AXFR query the transfer's outcome is determined entirely by `t.Conn`, and
two network environments delivering arbitrarily different streams on the
dialed connection yield identical results. -/
theorem c2_in_ignores_dialed_conn (t : Transfer)
    (dial1 dial2 : String → Except DnsError (List ReadResult))
    (q : Msg) (a : String) (s1 s2 : List ReadResult)
    (h1 : dial1 a = .ok s1) (h2 : dial2 a = .ok s2)
    (hq : (q.Question.headD ⟨0⟩).Qtype = TypeAXFR) :
    In t dial1 q a =
      .ok (some (runInAxfr q.Id ⟨true, t.tsigTimersOnly⟩ t.Conn)) ∧
    In t dial1 q a = In t dial2 q a := by
  have e1 : In t dial1 q a =
      .ok (some (runInAxfr q.Id ⟨true, t.tsigTimersOnly⟩ t.Conn)) := by
    simp only [In, h1]
    rw [if_pos hq]
  have e2 : In t dial2 q a =
      .ok (some (runInAxfr q.Id ⟨true, t.tsigTimersOnly⟩ t.Conn)) := by
    simp only [In, h2]
    rw [if_pos hq]
  exact ⟨e1, e1.trans e2.symm⟩

/-- Witness for C2: a dial that would deliver scenario A's message and a
dial that delivers nothing give the same transfer outcome — the run over
the Transfer's own (empty) `Conn`. -/
theorem c2_witness :
    In {} dialServerA qAxfr "srv" =
      .ok (some (runInAxfr qAxfr.Id
        ⟨true, ({} : Transfer).tsigTimersOnly⟩ ({} : Transfer).Conn)) ∧
    In {} dialServerA qAxfr "srv" = In {} dialEmpty qAxfr "srv" :=
  c2_in_ignores_dialed_conn {} dialServerA dialEmpty qAxfr "srv"
    [ReadResult.ok msgA] [] rfl rfl (by decide)

/-- Claim C3 (code bug): the guard in `ReadMsg` and `WriteMsg` is
`if ts := m.IsTsig(); t != nil` — it tests the receiver `t` (always
non-nil here) instead of `ts`, so the TSIG branch runs for every message;
on a message with no TSIG record, `ts.Hdr.Name` dereferences a nil pointer
and both functions panic instead of passing the unsigned message
through. -/
theorem c3_unsigned_message_panics
    (vf : String → String → Bool → Option DnsError)
    (gen : Msg → String → String → Bool → String × Option DnsError)
    (t : Transfer) (m : Msg) (h : m.Tsig = none) :
    ReadMsg vf t (.ok m) = .panics ∧ WriteMsg gen t m = .panics := by
  constructor <;> simp [ReadMsg, WriteMsg, h]

/-- Witness for C3: the unsigned scenario-A message panics both codecs. -/
theorem c3_witness :
    ReadMsg (fun _ _ _ => none) {} (.ok msgA) = .panics ∧
    WriteMsg (fun _ _ _ _ => ("", none)) {} msgA = .panics :=
  c3_unsigned_message_panics (fun _ _ _ => none)
    (fun _ _ _ _ => ("", none)) {} msgA rfl

/-- Claim C4: a message processed in the streaming state (`first = false`,
or the first message when it opens with SOA and has more than one answer
record) with matching identifier always emits the success envelope
`{records: answers, error: none}`; the loop stops exactly when the last
answer record is SOA and otherwise continues, in both cases with
`first = false` and `tsigTimersOnly = true` afterwards. -/
theorem c4_streaming_soa_last (id : Nat) (s : LoopSt) (m : Msg)
    (hid : m.Id = id)
    (hs : s.first = false ∨ (isSOAFirst m = true ∧ m.Answer.length ≠ 1)) :
    stepInAxfr id s (.ok m) =
      (⟨m.Answer, none⟩, ⟨false, true⟩, isSOALast m) := by
  cases hsf : s.first with
  | false =>
    cases hlast : isSOALast m <;> simp [stepInAxfr, hid, hsf, hlast]
  | true =>
    rcases hs with hs | ⟨h1, h2⟩
    · rw [hsf] at hs; exact absurd hs (by simp)
    · cases hlast : isSOALast m <;>
        simp [stepInAxfr, hid, hsf, h1, h2, hlast]

/-- Witness for C4: a streaming-state message `[A, A, SOA]` with matching
id emits the success envelope and stops (the last record is SOA). -/
theorem c4_witness :
    stepInAxfr 42 ⟨false, true⟩ (.ok msgStream) =
      (⟨msgStream.Answer, none⟩, ⟨false, true⟩, isSOALast msgStream) :=
  c4_streaming_soa_last 42 ⟨false, true⟩ msgStream rfl (Or.inl rfl)

/-- Claim C5 (counterexample): feeding the `Out` responder the two
envelopes `[[A1], [A2]]`, the second message written carries `[A1, A2]` —
the records of the earlier envelope are included again — not `[A2]` as
the claim requires. -/
theorem c5_counterexample :
    outAnswers [] [[rrA], [rrB]] = [[rrA], [rrA, rrB]] ∧
    [rrA, rrB] ≠ [rrB] := by
  constructor
  · rfl
  · decide

/-- Claim C5 (amended): the reply message is created once and its answer
section is never reset, so the i-th message written by the responder
carries the concatenation of the records of envelopes `0..i` (the
producer's batches are not split, and each batch appears in order as the
final segment of its message). -/
theorem c5_amended_accumulated_answers (envs : List (List RR)) :
    outAnswers [] envs =
      (List.range envs.length).map (fun i => ((envs.take (i + 1)).flatten)) := by
  simpa using outAnswers_acc envs []

/-- Claim C6 (code bug): the live body of `Transfer.In` performs no
deadline configuration at all — the block that would derive read/write
deadlines from `ReadTimeout`/`WriteTimeout` is commented out in the
source — so no read or write of the transfer runs under a deadline. -/
theorem c6_no_deadline_ops (t : Transfer) (a : String) :
    (inConnOps t a).filter isDeadlineOp = [] := by
  simp [inConnOps, isDeadlineOp]

/-- Claim C7: within one inbound transfer on a fresh `Transfer`, the
`tsigTimersOnly` flag starts `false`; its trace over the processed
messages never goes from `true` back to `false`; and its value after the
first processed message is `true` exactly when that message was
successfully validated (decoded, id match, leading SOA) — so the single
`false → true` transition happens on the first successfully validated
message and never reverts. -/
theorem c7_timers_only_monotone (id : Nat) (reads : List ReadResult)
    (h : reads ≠ []) :
    initSt.timersOnly = false ∧
    List.Chain' (fun a b => a ≤ b) (timersTrace id reads) ∧
    (timersTrace id reads).head? = some (firstValidated id reads) := by
  refine ⟨rfl, ?_, ?_⟩
  · have hchain := run_trace_chain id reads initSt
    exact hchain.tail
  · cases reads with
    | nil => exact absurd rfl h
    | cons r rs =>
      rcases hstep : stepInAxfr id initSt r with ⟨e, s', stop⟩
      have hfirst := step_first_timersOnly id r
      rw [hstep] at hfirst
      simp only at hfirst
      rw [firstValidated_cons id r rs, ← hfirst]
      cases stop with
      | true => simp [timersTrace, inAxfr, run_cons_stop id initSt r rs e s' hstep]
      | false => simp [timersTrace, inAxfr, run_cons_cont id initSt r rs e s' hstep]

/-- Witness for C7, at scenario A's input. -/
theorem c7_witness :
    initSt.timersOnly = false ∧
    List.Chain' (fun a b => a ≤ b) (timersTrace 42 [ReadResult.ok msgA]) ∧
    (timersTrace 42 [ReadResult.ok msgA]).head? =
      some (firstValidated 42 [ReadResult.ok msgA]) :=
  c7_timers_only_monotone 42 [ReadResult.ok msgA] (by simp)

/-- Claim C8: if the first `N-1` reads leave the loop still running (so
each produced an error-free envelope) and the `N`-th read is a message
whose identifier differs from the request identifier, then the transfer
emits the earlier error-free envelopes followed by one final envelope
carrying the mismatched message's answers and `ErrId`, terminates, and
performs exactly `N` reads — none after the mismatch. -/
theorem c8_id_mismatch_at_n (id : Nat) (rs rest : List ReadResult)
    (m : Msg) (hpre : (runInAxfr id initSt rs).done = false)
    (hm : m.Id ≠ id) :
    (∀ e ∈ (runInAxfr id initSt rs).envs, e.Error = none) ∧
    (inAxfr id (rs ++ ReadResult.ok m :: rest)).envs =
      (runInAxfr id initSt rs).envs ++ [⟨m.Answer, some DnsError.errId⟩] ∧
    (inAxfr id (rs ++ ReadResult.ok m :: rest)).done = true ∧
    (inAxfr id (rs ++ ReadResult.ok m :: rest)).readsUsed =
      rs.length + 1 := by
  obtain ⟨hne, hlen⟩ := run_not_done id rs initSt hpre
  have hmid : runInAxfr id (runInAxfr id initSt rs).finalSt
      (ReadResult.ok m :: rest) =
      ⟨[⟨m.Answer, some DnsError.errId⟩],
        (runInAxfr id initSt rs).finalSt, true, 1,
        [(runInAxfr id initSt rs).finalSt]⟩ :=
    run_cons_stop id _ _ rest _ _
      (step_id_mismatch id (runInAxfr id initSt rs).finalSt m hm)
  have happ := run_append id (ReadResult.ok m :: rest) rs initSt hpre
  rw [hmid] at happ
  refine ⟨hne, ?_, ?_, ?_⟩ <;> simp [inAxfr, happ, hlen]

/-- Witness for C8: after the lone-SOA opening message, a message with
id 99 instead of 42 ends the transfer with `ErrId`. -/
theorem c8_witness :
    (∀ e ∈ (runInAxfr 42 initSt [ReadResult.ok msgA]).envs,
      e.Error = none) ∧
    (inAxfr 42 ([ReadResult.ok msgA] ++ ReadResult.ok msg99 :: [])).envs =
      (runInAxfr 42 initSt [ReadResult.ok msgA]).envs ++
        [⟨msg99.Answer, some DnsError.errId⟩] ∧
    (inAxfr 42 ([ReadResult.ok msgA] ++ ReadResult.ok msg99 :: [])).done =
      true ∧
    (inAxfr 42 ([ReadResult.ok msgA] ++
        ReadResult.ok msg99 :: [])).readsUsed =
      [ReadResult.ok msgA].length + 1 :=
  c8_id_mismatch_at_n 42 [ReadResult.ok msgA] [] msg99
    (by decide) (by decide)

/-- Claim C9: a first message with matching identifier whose answer
section does not begin with SOA yields exactly one envelope carrying the
message's answers and `ErrSoa`, the transfer terminates after that single
read, and `tsigTimersOnly` is left untouched. -/
theorem c9_missing_leading_soa (id : Nat) (m : Msg)
    (rest : List ReadResult) (hid : m.Id = id)
    (hsoa : isSOAFirst m = false) :
    inAxfr id (ReadResult.ok m :: rest) =
      ⟨[⟨m.Answer, some DnsError.errSoa⟩], initSt, true, 1, [initSt]⟩ := by
  have hstep : stepInAxfr id initSt (.ok m) =
      (⟨m.Answer, some DnsError.errSoa⟩, initSt, true) := by
    simp [stepInAxfr, hid, hsoa, initSt]
  exact run_cons_stop id initSt (ReadResult.ok m) rest _ _ hstep

/-- Witness for C9: a first message `[A]` with id 42. -/
theorem c9_witness :
    inAxfr 42 (ReadResult.ok msgNoSoa :: []) =
      ⟨[⟨msgNoSoa.Answer, some DnsError.errSoa⟩], initSt, true, 1,
        [initSt]⟩ :=
  c9_missing_leading_soa 42 msgNoSoa [] rfl (by decide)

/-- Claim C10: a message received in the streaming state with matching
identifier and an empty answer section emits the success envelope
`{records: [], error: none}` and the loop continues reading — an empty
answer section neither terminates the transfer nor is classified as an
error. -/
theorem c10_empty_answer_continues (id : Nat) (b : Bool) (m : Msg)
    (rest : List ReadResult) (hid : m.Id = id) (hempty : m.Answer = []) :
    runInAxfr id ⟨false, b⟩ (ReadResult.ok m :: rest) =
      ⟨⟨[], none⟩ :: (runInAxfr id ⟨false, true⟩ rest).envs,
        (runInAxfr id ⟨false, true⟩ rest).finalSt,
        (runInAxfr id ⟨false, true⟩ rest).done,
        (runInAxfr id ⟨false, true⟩ rest).readsUsed + 1,
        ⟨false, true⟩ :: (runInAxfr id ⟨false, true⟩ rest).trace⟩ := by
  have hstep : stepInAxfr id ⟨false, b⟩ (.ok m) =
      (⟨[], none⟩, ⟨false, true⟩, false) := by
    simp [stepInAxfr, hid, isSOALast, hempty]
  exact run_cons_cont id ⟨false, b⟩ (ReadResult.ok m) rest _ _ hstep

/-- Witness for C10: an empty-answer message with id 42 in the streaming
state, with no further input. -/
theorem c10_witness :
    runInAxfr 42 ⟨false, true⟩ (ReadResult.ok msgEmpty :: []) =
      ⟨⟨[], none⟩ :: (runInAxfr 42 ⟨false, true⟩ []).envs,
        (runInAxfr 42 ⟨false, true⟩ []).finalSt,
        (runInAxfr 42 ⟨false, true⟩ []).done,
        (runInAxfr 42 ⟨false, true⟩ []).readsUsed + 1,
        ⟨false, true⟩ :: (runInAxfr 42 ⟨false, true⟩ []).trace⟩ :=
  c10_empty_answer_continues 42 true msgEmpty [] rfl rfl

end Dns
